import Mathlib

/-!
Verification of the shapefile ingestion pipeline of the land-plot
marketplace repository (`ShapefileService` in the shapefile service module):
`validateGeometry`, `convertToPlotData`, `parseShapefileFromZip`,
`getSupportedFormats` and `validateFile`.

The geometry math used by the service (Turf.js `area`, `booleanValid`,
`kinks`, `bboxPolygon`) and JSON serialization are external capabilities;
they are modelled as an explicit interface record (`GeoMath`) passed to the
embedded functions, while the service's own control flow is translated
line by line from the source.  The one piece of Turf behaviour the control
flow depends on — whether `turf.polygon` throws on malformed rings — is
modelled concretely (`polygonOk`), following Turf's documented contract:
every linear ring must have at least 4 positions and be closed (first
position equal to last).

JavaScript dynamic values carried through attribute dictionaries are
modelled by `JSVal` together with JS truthiness, since the field-mapping
code uses `||` chains over attribute lookups.
-/

namespace LandHub

/-- A JavaScript value as it appears in a feature's attribute dictionary:
a string, a number (modelled as a rational), a boolean, or
undefined/absent. -/
inductive JSVal where
  | vstr : String → JSVal
  | vnum : ℚ → JSVal
  | vbool : Bool → JSVal
  | vnull : JSVal
deriving DecidableEq, Repr

/-- JavaScript truthiness: empty strings, zero, `false` and `undefined`
are falsy, everything else is truthy. -/
def JSVal.truthy : JSVal → Bool
  | .vstr s => s ≠ ""
  | .vnum q => q ≠ 0
  | .vbool b => b
  | .vnull => false

/-- JavaScript `a || b`: the left value when truthy, otherwise the right. -/
def jsOr (a b : JSVal) : JSVal := if a.truthy then a else b

/-- JavaScript property access `props.KEY` on an attribute dictionary:
the value at the first matching key, `undefined` when the key is absent.
Key comparison is exact (case-sensitive), as in JavaScript. -/
def getProp (props : List (String × JSVal)) (k : String) : JSVal :=
  (props.lookup k).getD .vnull

/-- A ring of a polygon: an ordered list of (x, y) coordinate pairs. -/
abbrev Ring := List (ℚ × ℚ)

/-- A GeoJSON geometry object as the service sees it: a `type` tag and a
`coordinates` member holding a list of rings. -/
structure Geom where
  gtype : String
  coords : List Ring
deriving DecidableEq, Repr

/-- One decoded feature: an optional geometry (the source guards against a
null geometry) and an optional attribute dictionary (the source writes
`feature.properties || {}`). -/
structure Feature where
  geometry : Option Geom
  properties : Option (List (String × JSVal))
deriving DecidableEq, Repr

/-- Turf's precondition on one linear ring: at least 4 positions and the
first position equal to the last.  `turf.polygon` throws exactly when some
ring violates this. -/
def ringOk (r : Ring) : Bool :=
  decide (4 ≤ r.length) && (r.head? == r.getLast?)

/-- Whether `turf.polygon coordinates` succeeds: every ring satisfies
`ringOk`. -/
def polygonOk (coords : List Ring) : Bool := coords.all ringOk

/-- The external geometry-math and serialization capability consumed by the
service: planar/geodesic area, topological validity, number of
self-intersection points found by `kinks`, the bounding-box polygon of a
feature collection, and JSON serialization of a geometry.  The service only
forwards their results; their internals are outside this repository. -/
structure GeoMath where
  area : Geom → ℚ
  booleanValid : Geom → Bool
  kinksCount : Geom → ℕ
  bboxPolygon : List Feature → Geom
  stringify : Option Geom → String

/-- `turf.area` applied to a whole feature: the area of its geometry, and 0
for a feature with no geometry (Turf skips null geometries). -/
def turfAreaFeature (M : GeoMath) (geometry : Option Geom) : ℚ :=
  match geometry with
  | none => 0
  | some g => M.area g

/-- The `{ isValid, errors }` pair returned by the service's validators. -/
structure ValidationResult where
  isValid : Bool
  errors : List String
deriving DecidableEq, Repr

/-- `ShapefileService.validateGeometry`: rejects a missing or non-Polygon
geometry outright; otherwise builds the Turf polygon (catching the
malformed-ring throw as `Invalid geometry format`) and accumulates, without
short-circuiting, the topological-validity, self-intersection and
area-range errors. -/
def validateGeometry (M : GeoMath) (geometry : Option Geom) : ValidationResult :=
  match geometry with
  | none => { isValid := false, errors := ["Geometry must be a Polygon"] }
  | some g =>
    if g.gtype = "Polygon" then
      if polygonOk g.coords then
        let e1 : List String := if M.booleanValid g then [] else ["Invalid polygon geometry"]
        let e2 : List String := if 0 < M.kinksCount g then ["Polygon has self-intersections"] else []
        let area := M.area g
        let e3 : List String := if area < 1 then ["Area too small"] else []
        let e4 : List String := if 10000000 < area then ["Area too large"] else []
        let errors := e1 ++ e2 ++ e3 ++ e4
        { isValid := errors.isEmpty, errors := errors }
      else
        { isValid := false, errors := ["Invalid geometry format"] }
    else
      { isValid := false, errors := ["Geometry must be a Polygon"] }

/-- The normalized plot record (`ParsedPlotData`) produced per feature:
the mapped fields, the serialized geometry, the computed area and the
original attribute dictionary. -/
structure ParsedPlotData where
  plot_code : JSVal
  geometry : String
  area_sqm : ℚ
  land_use : JSVal
  owner_name : JSVal
  price_usd : JSVal
  notes : JSVal
  attributes : List (String × JSVal)
deriving DecidableEq, Repr

/-- The per-feature body of `ShapefileService.convertToPlotData`: computes
the area with Turf, then maps attribute aliases onto the canonical plot
fields with `||` chains.  `now` models `Date.now()` and `rnd` models
`Math.random().toString(36).substr(2, 9)` at this iteration. -/
def buildPlotData (M : GeoMath) (now : ℕ) (rnd : String) (f : Feature) : ParsedPlotData :=
  let props := f.properties.getD []
  let area := turfAreaFeature M f.geometry
  { plot_code := jsOr (getProp props "PLOT_CODE") (jsOr (getProp props "plot_code")
      (jsOr (getProp props "ID") (.vstr ("PLOT_" ++ toString now ++ "_" ++ rnd)))),
    geometry := M.stringify f.geometry,
    area_sqm := area,
    land_use := jsOr (getProp props "LAND_USE") (jsOr (getProp props "land_use")
      (jsOr (getProp props "USE") (getProp props "TYPE"))),
    owner_name := jsOr (getProp props "OWNER") (jsOr (getProp props "owner")
      (getProp props "OWNER_NAME")),
    price_usd := jsOr (getProp props "PRICE_USD") (jsOr (getProp props "price")
      (getProp props "VALUE")),
    notes := jsOr (getProp props "NOTES") (jsOr (getProp props "notes")
      (getProp props "REMARKS")),
    attributes := props }

/-- The loop of `ShapefileService.convertToPlotData`, carrying the index of
the current feature so that the time/random streams can differ per
iteration: each feature is normalized, validated, and pushed onto the
result exactly when its geometry validates; an invalid record is skipped
with `continue` and the loop proceeds with the rest. -/
def convertAux (M : GeoMath) (dateNow : ℕ → ℕ) (rnd : ℕ → String) :
    ℕ → List Feature → List ParsedPlotData
  | _, [] => []
  | i, f :: rest =>
    let pd := buildPlotData M (dateNow i) (rnd i) f
    if (validateGeometry M f.geometry).isValid then
      pd :: convertAux M dateNow rnd (i + 1) rest
    else
      convertAux M dateNow rnd (i + 1) rest

/-- `ShapefileService.convertToPlotData` over the feature list of the
parsed shapefile data. -/
def convertToPlotData (M : GeoMath) (dateNow : ℕ → ℕ) (rnd : ℕ → String)
    (features : List Feature) : List ParsedPlotData :=
  convertAux M dateNow rnd 0 features

/-- JavaScript `str.toLowerCase()` as a character list. -/
def jsToLower (s : String) : List Char := s.data.map Char.toLower

/-- JavaScript `str.endsWith(suffix)`. -/
def jsEndsWith (s : List Char) (suffix : List Char) : Bool :=
  suffix.isSuffixOf s

/-- JavaScript `str.split(sep)` for a single-character separator. -/
def jsSplit (sep : Char) : List Char → List (List Char)
  | [] => [[]]
  | c :: cs =>
    if c = sep then [] :: jsSplit sep cs
    else
      match jsSplit sep cs with
      | [] => [[c]]
      | h :: t => (c :: h) :: t

/-- JavaScript `str.replace(pat, '')` for a single-character pattern:
removes the first occurrence of the character. -/
def removeFirst (c : Char) : List Char → List Char
  | [] => []
  | x :: xs => if x = c then xs else x :: removeFirst c xs

/-- The parsed shapefile data returned by `parseShapefileFromZip`:
features, the optional projection tag, the bounds polygon and the metadata
fields. -/
structure ShapefileData where
  features : List Feature
  projection : Option String
  bounds : Option Geom
  fileCount : ℕ
  hasProjection : Bool

/-- `ShapefileService.calculateBounds`: `null` for an empty feature list,
otherwise the bounding-box polygon of the collection. -/
def calculateBounds (M : GeoMath) (features : List Feature) : Option Geom :=
  if features.isEmpty then none else some (M.bboxPolygon features)

/-- `ShapefileService.parseShapefileFromZip`: searches the archive entry
names (case-insensitively) for `.shp`, `.dbf` and `.prj` members; throws
before any feature is produced when the `.shp` or `.dbf` member is
missing; otherwise returns the decoded features (the source stubs actual
decoding with a generator, modelled here by the `decoded` argument), an
`EPSG:4326` projection exactly when a `.prj` member is present, the bounds
and the metadata. -/
def parseShapefileFromZip (M : GeoMath) (entryNames : List String)
    (decoded : List Feature) : Except String ShapefileData :=
  let shpFile := entryNames.find? (fun n => jsEndsWith (jsToLower n) ".shp".data)
  let dbfFile := entryNames.find? (fun n => jsEndsWith (jsToLower n) ".dbf".data)
  let prjFile := entryNames.find? (fun n => jsEndsWith (jsToLower n) ".prj".data)
  if shpFile.isNone || dbfFile.isNone then
    .error "Failed to parse shapefile: Shapefile must contain .shp and .dbf files"
  else
    .ok { features := decoded,
          projection := if prjFile.isSome then some "EPSG:4326" else none,
          bounds := calculateBounds M decoded,
          fileCount := entryNames.length,
          hasProjection := prjFile.isSome }

/-- `ShapefileService.getSupportedFormats`. -/
def getSupportedFormats : List String :=
  [".zip", ".shp", ".shx", ".dbf", ".prj", ".cpg"]

/-- A browser `File` as `validateFile` inspects it: a name and a byte
size. -/
structure JSFile where
  name : String
  size : ℕ
deriving DecidableEq, Repr

/-- `ShapefileService.validateFile`: rejects a file over 50 MB, and a file
whose extension (the last `.`-separated segment of the lowercased name) is
empty or not among the supported formats with their leading dot removed. -/
def validateFile (file : JSFile) : ValidationResult :=
  let maxSize := 50 * 1024 * 1024
  let e1 : List String :=
    if maxSize < file.size then ["File size exceeds 50MB limit"] else []
  let extension := (jsSplit '.' (jsToLower file.name)).getLastD []
  let supportedFormats := getSupportedFormats.map (fun f => removeFirst '.' f.data)
  let e2 : List String :=
    if extension = [] ∨ extension ∉ supportedFormats then
      ["Unsupported file format. Please upload a ZIP file containing shapefile components."]
    else []
  let errors := e1 ++ e2
  { isValid := errors.isEmpty, errors := errors }

/-! ### Helper lemmas -/

/-- On a well-formed Polygon geometry, the error list of `validateGeometry`
is the concatenation of the four independent rule checks. -/
lemma validateGeometry_errors_eq (M : GeoMath) (g : Geom)
    (hty : g.gtype = "Polygon") (hok : polygonOk g.coords = true) :
    (validateGeometry M (some g)).errors =
      (if M.booleanValid g then [] else ["Invalid polygon geometry"]) ++
      (if 0 < M.kinksCount g then ["Polygon has self-intersections"] else []) ++
      (if M.area g < 1 then ["Area too small"] else []) ++
      (if 10000000 < M.area g then ["Area too large"] else []) := by
  simp [validateGeometry, hty, hok]

/-- On a well-formed Polygon geometry, `validateGeometry` declares validity
exactly when its error list is empty. -/
lemma validateGeometry_isValid_eq (M : GeoMath) (g : Geom)
    (hty : g.gtype = "Polygon") (hok : polygonOk g.coords = true) :
    (validateGeometry M (some g)).isValid =
      (validateGeometry M (some g)).errors.isEmpty := by
  simp [validateGeometry, hty, hok]

/-- On a well-formed Polygon geometry, each of the four rule reasons is in
the error list exactly when its rule is violated. -/
lemma validateGeometry_errors_char (M : GeoMath) (g : Geom)
    (hty : g.gtype = "Polygon") (hok : polygonOk g.coords = true) :
    ("Invalid polygon geometry" ∈ (validateGeometry M (some g)).errors ↔
        M.booleanValid g = false) ∧
    ("Polygon has self-intersections" ∈ (validateGeometry M (some g)).errors ↔
        0 < M.kinksCount g) ∧
    ("Area too small" ∈ (validateGeometry M (some g)).errors ↔ M.area g < 1) ∧
    ("Area too large" ∈ (validateGeometry M (some g)).errors ↔
        10000000 < M.area g) := by
  rw [validateGeometry_errors_eq M g hty hok]
  split_ifs <;> simp_all

/-- The conversion loop distributes over list concatenation, continuing
after the first chunk with the index advanced past it. -/
lemma convertAux_append (M : GeoMath) (dn : ℕ → ℕ) (rnd : ℕ → String) :
    ∀ (xs ys : List Feature) (i : ℕ),
      convertAux M dn rnd i (xs ++ ys) =
        convertAux M dn rnd i xs ++ convertAux M dn rnd (i + xs.length) ys := by
  intro xs
  induction xs with
  | nil => intro ys i; simp [convertAux]
  | cons x xs ih =>
    intro ys i
    have harith : i + 1 + xs.length = i + (xs.length + 1) := by omega
    simp only [List.cons_append, convertAux, List.length_cons, List.append_eq]
    split <;> (rw [ih ys (i + 1), harith]; try simp)

/-! ### Concrete fixtures for witnesses and counterexamples -/

/-- A concrete geometry-math interface for witnesses: constant area 2 m²,
topologically valid, no self-intersections. -/
def M0 : GeoMath :=
  { area := fun _ => 2,
    booleanValid := fun _ => true,
    kinksCount := fun _ => 0,
    bboxPolygon := fun _ => ⟨"Polygon", []⟩,
    stringify := fun _ => "GEOM" }

/-- A concrete geometry-math interface reporting every geometric defect:
area 0, topologically invalid, three self-intersection points. -/
def Mbad : GeoMath :=
  { area := fun _ => 0,
    booleanValid := fun _ => false,
    kinksCount := fun _ => 3,
    bboxPolygon := fun _ => ⟨"Polygon", []⟩,
    stringify := fun _ => "GEOM" }

/-- A closed 5-position square ring about the origin. -/
def ring0 : Ring := [(0, 0), (4, 0), (4, 4), (0, 4), (0, 0)]

/-- A well-formed single-ring Polygon geometry. -/
def g0 : Geom := ⟨"Polygon", [ring0]⟩

/-- A feature carrying `g0` and a `PLOT_CODE` attribute. -/
def f0 : Feature := ⟨some g0, some [("PLOT_CODE", .vstr "LP001")]⟩

/-- A feature with no geometry and no attributes; its validation fails. -/
def fBad : Feature := ⟨none, none⟩

/-! ### Claims -/

/-- C1: For every GeoJSON Polygon geometry whose type is 'Polygon', for
which the validity check succeeds, which has no self-intersections, and
whose computed area is strictly between 1 and 10,000,000 square meters,
validateGeometry returns isValid = true with an empty errors list, and
convertToPlotData includes the corresponding feature in its output
batch. -/
theorem valid_polygon_accepted_and_batched (M : GeoMath) (g : Geom)
    (dn : ℕ → ℕ) (rnd : ℕ → String) (pre post : List Feature) (f : Feature)
    (hf : f.geometry = some g)
    (hty : g.gtype = "Polygon") (hok : polygonOk g.coords = true)
    (hvalid : M.booleanValid g = true) (hkinks : M.kinksCount g = 0)
    (harea1 : 1 < M.area g) (harea2 : M.area g < 10000000) :
    (validateGeometry M (some g)).isValid = true ∧
    (validateGeometry M (some g)).errors = [] ∧
    buildPlotData M (dn pre.length) (rnd pre.length) f ∈
      convertToPlotData M dn rnd (pre ++ f :: post) := by
  have h3 : ¬ (M.area g < 1) := not_lt.mpr harea1.le
  have h4 : ¬ (10000000 < M.area g) := not_lt.mpr harea2.le
  have herr : (validateGeometry M (some g)).errors = [] := by
    rw [validateGeometry_errors_eq M g hty hok]
    simp [hvalid, hkinks, h3, h4]
  have hval : (validateGeometry M (some g)).isValid = true := by
    rw [validateGeometry_isValid_eq M g hty hok, herr]
    rfl
  refine ⟨hval, herr, ?_⟩
  rw [convertToPlotData, convertAux_append M dn rnd pre (f :: post) 0]
  have hstep : convertAux M dn rnd (0 + pre.length) (f :: post) =
      buildPlotData M (dn (0 + pre.length)) (rnd (0 + pre.length)) f ::
        convertAux M dn rnd (0 + pre.length + 1) post := by
    rw [convertAux]
    rw [hf, hval]
    simp
  rw [hstep]
  simp

/-- C1 witness: a concrete well-formed square Polygon under the concrete
geometry math `M0`, placed after one invalid feature, is accepted with no
errors and its plot record is in the conversion output. -/
theorem valid_polygon_accepted_and_batched_witness :
    (f0.geometry = some g0 ∧ g0.gtype = "Polygon" ∧ polygonOk g0.coords = true ∧
      M0.booleanValid g0 = true ∧ M0.kinksCount g0 = 0 ∧
      1 < M0.area g0 ∧ M0.area g0 < 10000000) ∧
    ((validateGeometry M0 (some g0)).isValid = true ∧
      (validateGeometry M0 (some g0)).errors = [] ∧
      buildPlotData M0 ((fun i => i) [fBad].length) ((fun _ => "r0") [fBad].length) f0 ∈
        convertToPlotData M0 (fun i => i) (fun _ => "r0") ([fBad] ++ f0 :: [])) :=
  ⟨⟨rfl, rfl, by decide, rfl, rfl, by decide, by decide⟩,
    valid_polygon_accepted_and_batched M0 g0 (fun i => i) (fun _ => "r0")
      [fBad] [] f0 rfl rfl (by decide) rfl rfl (by decide) (by decide)⟩

/-- C2: For every Polygon geometry, validateGeometry reports the reason
'Area too small' if and only if its computed area is < 1 m², and reports
the reason 'Area too large' if and only if its computed area is
> 10,000,000 m², regardless of the geometry's other properties (the
topological-validity and self-intersection results are arbitrary). -/
theorem area_reasons_iff (M : GeoMath) (g : Geom)
    (hty : g.gtype = "Polygon") (hok : polygonOk g.coords = true) :
    ("Area too small" ∈ (validateGeometry M (some g)).errors ↔ M.area g < 1) ∧
    ("Area too large" ∈ (validateGeometry M (some g)).errors ↔
      10000000 < M.area g) :=
  ⟨(validateGeometry_errors_char M g hty hok).2.2.1,
    (validateGeometry_errors_char M g hty hok).2.2.2⟩

/-- C2 witness: under `Mbad` (area 0) the square carries 'Area too small'
and not 'Area too large'; the iff is applied at this concrete geometry. -/
theorem area_reasons_iff_witness :
    (g0.gtype = "Polygon" ∧ polygonOk g0.coords = true) ∧
    (("Area too small" ∈ (validateGeometry Mbad (some g0)).errors ↔
        Mbad.area g0 < 1) ∧
      ("Area too large" ∈ (validateGeometry Mbad (some g0)).errors ↔
        10000000 < Mbad.area g0)) :=
  ⟨⟨rfl, by decide⟩, area_reasons_iff Mbad g0 rfl (by decide)⟩

/-- A MultiPolygon-typed geometry over the closed square ring: not a
single Polygon, so it hits the early return of the geometry-type check. -/
def gMulti : Geom := ⟨"MultiPolygon", [ring0]⟩

/-- C3 counterexample: the geometry-type rule does short-circuit.  Under
the geometry math `Mbad` the MultiPolygon record's computed area is 0,
which triggers the area-too-small rule, yet validateGeometry returns only
the geometry-type reason: the triggered area rule's reason never appears
in the errors list. -/
theorem type_rule_short_circuits :
    Mbad.area gMulti < 1 ∧
    validateGeometry Mbad (some gMulti) =
      ⟨false, ["Geometry must be a Polygon"]⟩ ∧
    "Area too small" ∉ (validateGeometry Mbad (some gMulti)).errors := by
  refine ⟨by decide, by decide, by decide⟩

/-- C3 (amended): the geometry-type rule short-circuits: a record whose
geometry is missing or not of type 'Polygon' is rejected with only the
reason 'Geometry must be a Polygon', and a Polygon-typed record with
malformed rings with only 'Invalid geometry format'.  For every
well-formed Polygon record, the remaining rules (polygon validity,
self-intersection, area too small, area too large) are all evaluated
without short-circuiting and every triggered rule's reason appears in the
returned errors list; in particular a self-intersecting polygon that is
also topologically invalid carries both the self-intersection reason and
the invalid-polygon reason simultaneously. -/
theorem rules_after_type_gate (M : GeoMath) :
    (validateGeometry M none = ⟨false, ["Geometry must be a Polygon"]⟩) ∧
    (∀ g : Geom, g.gtype ≠ "Polygon" →
      validateGeometry M (some g) = ⟨false, ["Geometry must be a Polygon"]⟩) ∧
    (∀ g : Geom, g.gtype = "Polygon" → polygonOk g.coords = false →
      validateGeometry M (some g) = ⟨false, ["Invalid geometry format"]⟩) ∧
    (∀ g : Geom, g.gtype = "Polygon" → polygonOk g.coords = true →
      ((("Invalid polygon geometry" ∈ (validateGeometry M (some g)).errors ↔
            M.booleanValid g = false) ∧
          ("Polygon has self-intersections" ∈ (validateGeometry M (some g)).errors ↔
            0 < M.kinksCount g) ∧
          ("Area too small" ∈ (validateGeometry M (some g)).errors ↔
            M.area g < 1) ∧
          ("Area too large" ∈ (validateGeometry M (some g)).errors ↔
            10000000 < M.area g)) ∧
        (M.booleanValid g = false → 0 < M.kinksCount g →
          "Invalid polygon geometry" ∈ (validateGeometry M (some g)).errors ∧
          "Polygon has self-intersections" ∈ (validateGeometry M (some g)).errors))) := by
  refine ⟨rfl, fun g hty => ?_, fun g hty hok => ?_, fun g hty hok => ?_⟩
  · simp [validateGeometry, hty]
  · simp [validateGeometry, hty, hok]
  · have hc := validateGeometry_errors_char M g hty hok
    exact ⟨hc, fun hb hk => ⟨hc.1.mpr hb, hc.2.1.mpr hk⟩⟩

/-- C3 witness: the MultiPolygon record gets only the geometry-type
reason, and under `Mbad` the well-formed square is simultaneously invalid
and self-intersecting with both reasons in the error list together. -/
theorem rules_after_type_gate_witness :
    ((gMulti.gtype ≠ "Polygon") ∧
      validateGeometry Mbad (some gMulti) =
        ⟨false, ["Geometry must be a Polygon"]⟩) ∧
    ((g0.gtype = "Polygon" ∧ polygonOk g0.coords = true ∧
        Mbad.booleanValid g0 = false ∧ 0 < Mbad.kinksCount g0) ∧
      ("Invalid polygon geometry" ∈ (validateGeometry Mbad (some g0)).errors ∧
        "Polygon has self-intersections" ∈ (validateGeometry Mbad (some g0)).errors)) :=
  ⟨⟨by decide, (rules_after_type_gate Mbad).2.1 gMulti (by decide)⟩,
    ⟨rfl, by decide, rfl, by decide⟩,
    ((rules_after_type_gate Mbad).2.2.2 g0 rfl (by decide)).2 rfl (by decide)⟩

/-- A feature whose only plot-code-like attribute key is the mixed-case
`Plot_Code`, a case variant of the alias `PLOT_CODE`. -/
def fMixedCase : Feature := ⟨some g0, some [("Plot_Code", .vstr "ABC")]⟩

/-- C4 counterexample: field mapping is not case-insensitive.  The feature
whose attributes hold the plot code under the key `Plot_Code` — a case
variant of the recognized alias `PLOT_CODE` — does not receive that value
as its plot code; a fallback code is synthesized instead, even though the
lowercased key coincides with the lowercased alias. -/
theorem plot_code_not_case_insensitive :
    jsToLower "Plot_Code" = jsToLower "PLOT_CODE" ∧
    (buildPlotData M0 7 "s9" fMixedCase).plot_code = JSVal.vstr "PLOT_7_s9" ∧
    (buildPlotData M0 7 "s9" fMixedCase).plot_code ≠ JSVal.vstr "ABC" := by
  refine ⟨by decide, ?_, ?_⟩ <;> decide

/-- C4 (amended): the mapping of source field names onto the plot code is
case-sensitive and tries the exact keys PLOT_CODE, then plot_code, then
ID, where the first alias with a truthy value wins and all later aliases
are ignored even when also present; if no alias yields a truthy value, a
non-empty plot code is synthesized from the fixed prefix PLOT_, the
current time, and a random suffix. -/
theorem plot_code_alias_priority (M : GeoMath) (now : ℕ) (rnd : String)
    (geometry : Option Geom) (props : List (String × JSVal)) :
    ((getProp props "PLOT_CODE").truthy = true →
      (buildPlotData M now rnd ⟨geometry, some props⟩).plot_code =
        getProp props "PLOT_CODE") ∧
    ((getProp props "PLOT_CODE").truthy = false →
      (getProp props "plot_code").truthy = true →
      (buildPlotData M now rnd ⟨geometry, some props⟩).plot_code =
        getProp props "plot_code") ∧
    ((getProp props "PLOT_CODE").truthy = false →
      (getProp props "plot_code").truthy = false →
      (getProp props "ID").truthy = true →
      (buildPlotData M now rnd ⟨geometry, some props⟩).plot_code =
        getProp props "ID") ∧
    ((getProp props "PLOT_CODE").truthy = false →
      (getProp props "plot_code").truthy = false →
      (getProp props "ID").truthy = false →
      (buildPlotData M now rnd ⟨geometry, some props⟩).plot_code =
        JSVal.vstr ("PLOT_" ++ toString now ++ "_" ++ rnd) ∧
      ("PLOT_" ++ toString now ++ "_" ++ rnd) ≠ "") := by
  have hne : ("PLOT_" ++ toString now ++ "_" ++ rnd) ≠ "" := by
    intro h
    have hlen := congrArg String.length h
    rw [String.length_append, String.length_append, String.length_append] at hlen
    have h5 : ("PLOT_" : String).length = 5 := rfl
    have h0 : ("" : String).length = 0 := rfl
    rw [h5, h0] at hlen
    omega
  refine ⟨fun h1 => ?_, fun h1 h2 => ?_, fun h1 h2 h3 => ?_, fun h1 h2 h3 => ⟨?_, hne⟩⟩ <;>
    simp [buildPlotData, jsOr, h1]
  · simp [h2]
  · simp [h2, h3]
  · simp [h2, h3]

/-- C4 witness: with all three aliases present and truthy, the PLOT_CODE
value wins and the later aliases are ignored. -/
theorem plot_code_alias_priority_witness :
    (getProp [("ID", JSVal.vstr "idv"), ("plot_code", JSVal.vstr "low"),
        ("PLOT_CODE", JSVal.vstr "TOP")] "PLOT_CODE").truthy = true ∧
    (buildPlotData M0 3 "zz" ⟨some g0, some [("ID", JSVal.vstr "idv"),
        ("plot_code", JSVal.vstr "low"), ("PLOT_CODE", JSVal.vstr "TOP")]⟩).plot_code =
      getProp [("ID", JSVal.vstr "idv"), ("plot_code", JSVal.vstr "low"),
        ("PLOT_CODE", JSVal.vstr "TOP")] "PLOT_CODE" :=
  ⟨by decide,
    (plot_code_alias_priority M0 3 "zz" (some g0) [("ID", JSVal.vstr "idv"),
        ("plot_code", JSVal.vstr "low"), ("PLOT_CODE", JSVal.vstr "TOP")]).1 (by decide)⟩

/-- A feature whose PRICE_USD attribute is a negative number. -/
def fNegPrice : Feature := ⟨some g0, some [("PRICE_USD", JSVal.vnum (-50000))]⟩

/-- A feature whose PRICE_USD attribute is a non-numeric string. -/
def fStrPrice : Feature := ⟨some g0, some [("PRICE_USD", JSVal.vstr "not-a-number")]⟩

/-- C5 counterexample: the price is not coerced and not range-checked.  A
negative PRICE_USD value is carried onto the plot record (it is present,
not absent), and a non-numeric string PRICE_USD value is likewise carried
through verbatim instead of being treated as absent. -/
theorem price_not_coerced :
    (buildPlotData M0 0 "r" fNegPrice).price_usd = JSVal.vnum (-50000) ∧
    ((-50000 : ℚ) < 0) ∧
    (buildPlotData M0 0 "r" fNegPrice).price_usd ≠ JSVal.vnull ∧
    (buildPlotData M0 0 "r" fStrPrice).price_usd = JSVal.vstr "not-a-number" := by
  refine ⟨?_, by decide, ?_, ?_⟩ <;> decide

/-- C5 (amended): the price field of the produced plot record is the value
of the first truthy source attribute among PRICE_USD, price, VALUE,
carried through verbatim with no coercion and no non-negativity check — in
particular a truthy numeric PRICE_USD is kept even when negative — and
when all three aliases are falsy or absent the price field is the VALUE
attribute's value (undefined, hence absent, when that key is missing). -/
theorem price_passthrough (M : GeoMath) (now : ℕ) (rnd : String)
    (geometry : Option Geom) (props : List (String × JSVal)) :
    ((getProp props "PRICE_USD").truthy = true →
      (buildPlotData M now rnd ⟨geometry, some props⟩).price_usd =
        getProp props "PRICE_USD") ∧
    ((getProp props "PRICE_USD").truthy = false →
      (getProp props "price").truthy = true →
      (buildPlotData M now rnd ⟨geometry, some props⟩).price_usd =
        getProp props "price") ∧
    ((getProp props "PRICE_USD").truthy = false →
      (getProp props "price").truthy = false →
      (buildPlotData M now rnd ⟨geometry, some props⟩).price_usd =
        getProp props "VALUE") ∧
    (∀ q : ℚ, getProp props "PRICE_USD" = JSVal.vnum q → q ≠ 0 →
      (buildPlotData M now rnd ⟨geometry, some props⟩).price_usd = JSVal.vnum q) := by
  refine ⟨fun h1 => ?_, fun h1 h2 => ?_, fun h1 h2 => ?_, fun q hq hq0 => ?_⟩
  · simp [buildPlotData, jsOr, h1]
  · simp [buildPlotData, jsOr, h1, h2]
  · simp [buildPlotData, jsOr, h1, h2]
  · have h1 : (getProp props "PRICE_USD").truthy = true := by
      rw [hq]; simpa [JSVal.truthy] using hq0
    rw [← hq]
    simp [buildPlotData, jsOr, h1]

/-- C5 witness: applied at a concrete attribute dictionary whose PRICE_USD
is the truthy negative number -50000, the record's price is that value. -/
theorem price_passthrough_witness :
    (getProp [("PRICE_USD", JSVal.vnum (-50000))] "PRICE_USD").truthy = true ∧
    (buildPlotData M0 0 "r" ⟨some g0, some [("PRICE_USD", JSVal.vnum (-50000))]⟩).price_usd =
      getProp [("PRICE_USD", JSVal.vnum (-50000))] "PRICE_USD" :=
  ⟨by decide,
    (price_passthrough M0 0 "r" (some g0) [("PRICE_USD", JSVal.vnum (-50000))]).1
      (by decide)⟩

/-- C6: the area_sqm of the produced plot record equals the area computed
from the feature's geometry and is independent of the attribute
dictionary: two features with identical geometry but different attribute
values (including different AREA_SQM attributes) receive the same computed
area_sqm. -/
theorem area_from_geometry_only (M : GeoMath) (n1 n2 : ℕ) (r1 r2 : String)
    (f1 f2 : Feature) (hgeom : f1.geometry = f2.geometry) :
    (buildPlotData M n1 r1 f1).area_sqm = turfAreaFeature M f1.geometry ∧
    (buildPlotData M n1 r1 f1).area_sqm = (buildPlotData M n2 r2 f2).area_sqm := by
  constructor
  · simp [buildPlotData]
  · simp [buildPlotData, hgeom]

/-- C6 witness: two features sharing the square geometry but carrying
different AREA_SQM attributes receive the same computed area, equal to the
geometry's area. -/
theorem area_from_geometry_only_witness :
    ((⟨some g0, some [("AREA_SQM", JSVal.vnum 999)]⟩ : Feature).geometry =
      (⟨some g0, some [("AREA_SQM", JSVal.vnum 5)]⟩ : Feature).geometry) ∧
    ((buildPlotData M0 0 "a" ⟨some g0, some [("AREA_SQM", JSVal.vnum 999)]⟩).area_sqm =
        turfAreaFeature M0 (⟨some g0, some [("AREA_SQM", JSVal.vnum 999)]⟩ : Feature).geometry ∧
      (buildPlotData M0 0 "a" ⟨some g0, some [("AREA_SQM", JSVal.vnum 999)]⟩).area_sqm =
        (buildPlotData M0 1 "b" ⟨some g0, some [("AREA_SQM", JSVal.vnum 5)]⟩).area_sqm) :=
  ⟨rfl, area_from_geometry_only M0 0 1 "a" "b"
    ⟨some g0, some [("AREA_SQM", JSVal.vnum 999)]⟩
    ⟨some g0, some [("AREA_SQM", JSVal.vnum 5)]⟩ rfl⟩

/-- The error list of `validateFile` is the concatenation of the size
check and the extension check; the extension check passes exactly when the
extension is one of the six supported-format extensions with their dot
removed. -/
lemma validateFile_errors_eq (file : JSFile) :
    (validateFile file).errors =
      (if 50 * 1024 * 1024 < file.size then ["File size exceeds 50MB limit"] else []) ++
      (if (jsSplit '.' (jsToLower file.name)).getLastD [] ∈
          ["zip".data, "shp".data, "shx".data, "dbf".data, "prj".data, "cpg".data] then []
        else ["Unsupported file format. Please upload a ZIP file containing shapefile components."]) := by
  have hforms : getSupportedFormats.map (fun f => removeFirst '.' f.data) =
      ["zip".data, "shp".data, "shx".data, "dbf".data, "prj".data, "cpg".data] := by decide
  have hnil : ([] : List Char) ∉
      ["zip".data, "shp".data, "shx".data, "dbf".data, "prj".data, "cpg".data] := by decide
  simp only [validateFile, hforms]
  congr 1
  by_cases he : (jsSplit '.' (jsToLower file.name)).getLastD [] ∈
      ["zip".data, "shp".data, "shx".data, "dbf".data, "prj".data, "cpg".data]
  · rw [if_neg, if_pos he]
    rintro (h | h)
    · exact hnil (h ▸ he)
    · exact h he
  · rw [if_pos (Or.inr he), if_neg he]

/-- `validateFile` declares validity exactly when its error list is
empty. -/
lemma validateFile_isValid_eq (file : JSFile) :
    (validateFile file).isValid = (validateFile file).errors.isEmpty := by
  simp [validateFile]

/-- C7 counterexample: pre-parse validation does not accept only ZIP-family
packages.  A small file named parcels.shp — whose extension is shp, not a
compressed-package extension — is accepted by validateFile. -/
theorem non_zip_file_accepted :
    (validateFile ⟨"parcels.shp", 100⟩).isValid = true ∧
    (jsSplit '.' (jsToLower "parcels.shp")).getLastD [] ≠ "zip".data := by
  refine ⟨?_, ?_⟩ <;> decide

/-- C7 (amended): pre-parse validation accepts exactly the files of at most
50 MB whose extension — the last dot-separated segment of the lowercased
name — is one of zip, shp, shx, dbf, prj, cpg (so individual shapefile
component files are accepted as well, not only ZIP packages); a file over
50 MB carries the size error, and a file whose extension is not in the
list carries the unsupported-format error. -/
theorem file_validation_by_size_and_extension (file : JSFile) :
    ((validateFile file).isValid = true ↔
      (file.size ≤ 50 * 1024 * 1024 ∧
        (jsSplit '.' (jsToLower file.name)).getLastD [] ∈
          ["zip".data, "shp".data, "shx".data, "dbf".data, "prj".data, "cpg".data])) ∧
    (50 * 1024 * 1024 < file.size →
      (validateFile file).isValid = false ∧
      "File size exceeds 50MB limit" ∈ (validateFile file).errors) ∧
    ((jsSplit '.' (jsToLower file.name)).getLastD [] ∉
        ["zip".data, "shp".data, "shx".data, "dbf".data, "prj".data, "cpg".data] →
      (validateFile file).isValid = false ∧
      "Unsupported file format. Please upload a ZIP file containing shapefile components." ∈
        (validateFile file).errors) := by
  rw [validateFile_isValid_eq file, validateFile_errors_eq file]
  split_ifs with hs he <;> simp_all

/-- C7 witness: a 60 MB ZIP file is rejected with the size error, applying
the amended characterization at a concrete file. -/
theorem file_validation_by_size_and_extension_witness :
    (50 * 1024 * 1024 < 62914560) ∧
    ((validateFile ⟨"big.zip", 62914560⟩).isValid = false ∧
      "File size exceeds 50MB limit" ∈ (validateFile ⟨"big.zip", 62914560⟩).errors) :=
  ⟨by decide, (file_validation_by_size_and_extension ⟨"big.zip", 62914560⟩).2.1 (by decide)⟩

/-- C8: a package missing the geometry (.shp) entry or the attribute
(.dbf) entry fails with the missing-required-component error whatever the
decoded features would have been — so zero features are ever produced from
such a package — while a package with both entries parses successfully,
and when no projection (.prj) entry is present its absence does not cause
failure: the parse succeeds with no projection. -/
theorem missing_component_aborts (M : GeoMath) (entries : List String)
    (decoded : List Feature) :
    (((∀ n ∈ entries, jsEndsWith (jsToLower n) ".shp".data = false) ∨
        (∀ n ∈ entries, jsEndsWith (jsToLower n) ".dbf".data = false)) →
      parseShapefileFromZip M entries decoded =
        .error "Failed to parse shapefile: Shapefile must contain .shp and .dbf files") ∧
    ((∃ n ∈ entries, jsEndsWith (jsToLower n) ".shp".data = true) →
      (∃ n ∈ entries, jsEndsWith (jsToLower n) ".dbf".data = true) →
      ∃ d, parseShapefileFromZip M entries decoded = .ok d ∧ d.features = decoded ∧
        ((∀ n ∈ entries, jsEndsWith (jsToLower n) ".prj".data = false) →
          d.projection = none ∧ d.hasProjection = false)) := by
  constructor
  · rintro (h | h)
    · have hn : entries.find? (fun n => jsEndsWith (jsToLower n) ".shp".data) = none :=
        List.find?_eq_none.mpr (by intro x hx; simp [h x hx])
      simp [parseShapefileFromZip, hn]
    · have hn : entries.find? (fun n => jsEndsWith (jsToLower n) ".dbf".data) = none :=
        List.find?_eq_none.mpr (by intro x hx; simp [h x hx])
      simp [parseShapefileFromZip, hn]
  · intro h1 h2
    obtain ⟨n1, hn1, hp1⟩ := h1
    obtain ⟨n2, hn2, hp2⟩ := h2
    have hshp : (entries.find? (fun n => jsEndsWith (jsToLower n) ".shp".data)).isNone = false := by
      rcases hfind : entries.find? (fun n => jsEndsWith (jsToLower n) ".shp".data) with _ | v
      · rw [List.find?_eq_none] at hfind
        exact absurd hp1 (by simpa using hfind n1 hn1)
      · rfl
    have hdbf : (entries.find? (fun n => jsEndsWith (jsToLower n) ".dbf".data)).isNone = false := by
      rcases hfind : entries.find? (fun n => jsEndsWith (jsToLower n) ".dbf".data) with _ | v
      · rw [List.find?_eq_none] at hfind
        exact absurd hp2 (by simpa using hfind n2 hn2)
      · rfl
    refine ⟨{ features := decoded,
              projection := if (entries.find? (fun n => jsEndsWith (jsToLower n) ".prj".data)).isSome
                then some "EPSG:4326" else none,
              bounds := calculateBounds M decoded,
              fileCount := entries.length,
              hasProjection := (entries.find? (fun n => jsEndsWith (jsToLower n) ".prj".data)).isSome },
          ?_, rfl, ?_⟩
    · simp [parseShapefileFromZip, hshp, hdbf]
    · intro hprj
      have hn : entries.find? (fun n => jsEndsWith (jsToLower n) ".prj".data) = none :=
        List.find?_eq_none.mpr (by intro x hx; simp [hprj x hx])
      simp [hn]

/-- C8 witness: an archive holding parcels.SHP and parcels.dbf (and no
projection entry) parses successfully with no projection, while the
missing-component hypotheses are discharged at this concrete entry
list. -/
theorem missing_component_aborts_witness :
    ((∃ n ∈ ["parcels.SHP", "parcels.dbf"], jsEndsWith (jsToLower n) ".shp".data = true) ∧
      (∃ n ∈ ["parcels.SHP", "parcels.dbf"], jsEndsWith (jsToLower n) ".dbf".data = true)) ∧
    (∃ d, parseShapefileFromZip M0 ["parcels.SHP", "parcels.dbf"] [f0] = .ok d ∧
      d.features = [f0] ∧
      ((∀ n ∈ ["parcels.SHP", "parcels.dbf"], jsEndsWith (jsToLower n) ".prj".data = false) →
        d.projection = none ∧ d.hasProjection = false)) :=
  ⟨⟨by decide, by decide⟩,
    (missing_component_aborts M0 ["parcels.SHP", "parcels.dbf"] [f0]).2
      (by decide) (by decide)⟩

/-- The conversion loop's output is an order-preserving subsequence of the
input features mapped to their plot records (with the index stream aligned
to the loop's start index). -/
lemma convertAux_sublist (M : GeoMath) (dn : ℕ → ℕ) (rnd : ℕ → String) :
    ∀ (fs : List Feature) (i : ℕ),
      List.Sublist (convertAux M dn rnd i fs)
        ((List.enumFrom i fs).map (fun p => buildPlotData M (dn p.1) (rnd p.1) p.2)) := by
  intro fs
  induction fs with
  | nil => intro i; simp [convertAux]
  | cons f rest ih =>
    intro i
    rw [convertAux, List.enumFrom_cons, List.map_cons]
    split
    · exact List.Sublist.cons₂ _ (ih (i + 1))
    · exact List.Sublist.cons _ (ih (i + 1))

/-- Every record in the conversion loop's output is the plot record built
from some input feature whose geometry validates, and the output is no
longer than the input. -/
lemma convertAux_sound (M : GeoMath) (dn : ℕ → ℕ) (rnd : ℕ → String) :
    ∀ (fs : List Feature) (i : ℕ),
      (convertAux M dn rnd i fs).length ≤ fs.length ∧
      ∀ p ∈ convertAux M dn rnd i fs, ∃ f ∈ fs,
        (validateGeometry M f.geometry).isValid = true ∧
        p.geometry = M.stringify f.geometry ∧
        ∃ j, p = buildPlotData M (dn j) (rnd j) f := by
  intro fs
  induction fs with
  | nil => intro i; simp [convertAux]
  | cons f rest ih =>
    intro i
    rw [convertAux]
    by_cases h : (validateGeometry M f.geometry).isValid = true
    · simp only [h, if_true]
      refine ⟨by simpa using Nat.succ_le_succ (ih (i + 1)).1, ?_⟩
      intro p hp
      rcases List.mem_cons.mp hp with hp | hp
      · exact ⟨f, List.mem_cons_self f rest, h, by rw [hp]; simp [buildPlotData],
          ⟨i, hp⟩⟩
      · obtain ⟨f1, hf1, hv, hg, j, hj⟩ := (ih (i + 1)).2 p hp
        exact ⟨f1, List.mem_cons_of_mem f hf1, hv, hg, j, hj⟩
    · simp only [h, if_false]
      refine ⟨le_trans (ih (i + 1)).1 (Nat.le_succ _), ?_⟩
      intro p hp
      obtain ⟨f1, hf1, hv, hg, j, hj⟩ := (ih (i + 1)).2 p hp
      exact ⟨f1, List.mem_cons_of_mem f hf1, hv, hg, j, hj⟩

/-- C9: the accepted plot records in the output of convertToPlotData
appear in the same relative order as their source features (the output is
an order-preserving subsequence of the input features mapped to their plot
records), and a record whose validation fails contributes nothing while
the records before and after it are still processed. -/
theorem order_preserved_and_no_abort (M : GeoMath) (dn : ℕ → ℕ) (rnd : ℕ → String) :
    (∀ fs : List Feature,
      List.Sublist (convertToPlotData M dn rnd fs)
        ((List.enumFrom 0 fs).map (fun p => buildPlotData M (dn p.1) (rnd p.1) p.2))) ∧
    (∀ (pre : List Feature) (f : Feature) (post : List Feature),
      (validateGeometry M f.geometry).isValid = false →
      convertToPlotData M dn rnd (pre ++ f :: post) =
        convertAux M dn rnd 0 pre ++ convertAux M dn rnd (pre.length + 1) post) := by
  constructor
  · intro fs
    exact convertAux_sublist M dn rnd fs 0
  · intro pre f post hf
    rw [convertToPlotData, convertAux_append M dn rnd pre (f :: post) 0]
    have hstep : convertAux M dn rnd (0 + pre.length) (f :: post) =
        convertAux M dn rnd (0 + pre.length + 1) post := by
      rw [convertAux, hf]
      simp
    rw [hstep]
    simp

/-- C9 witness: with an invalid feature between two valid ones, the
conversion of the whole list still processes the prefix and the suffix,
applying the skip equation at a concrete input. -/
theorem order_preserved_and_no_abort_witness :
    ((validateGeometry M0 fBad.geometry).isValid = false) ∧
    (convertToPlotData M0 (fun i => i) (fun _ => "r0") ([f0] ++ fBad :: [f0]) =
      convertAux M0 (fun i => i) (fun _ => "r0") 0 [f0] ++
        convertAux M0 (fun i => i) (fun _ => "r0") ([f0].length + 1) [f0]) :=
  ⟨by decide,
    (order_preserved_and_no_abort M0 (fun i => i) (fun _ => "r0")).2 [f0] fBad [f0]
      (by decide)⟩

/-- C10: every plot record in the batch returned by convertToPlotData
stems from an input feature whose geometry validates (its stored geometry
is the serialization of that feature's geometry, and no record failing a
validation rule ever enters the batch), and the batch never has more
records than there are input features. -/
theorem batch_only_validated_records (M : GeoMath) (dn : ℕ → ℕ) (rnd : ℕ → String)
    (fs : List Feature) :
    (convertToPlotData M dn rnd fs).length ≤ fs.length ∧
    ∀ p ∈ convertToPlotData M dn rnd fs, ∃ f ∈ fs,
      (validateGeometry M f.geometry).isValid = true ∧
      p.geometry = M.stringify f.geometry ∧
      ∃ j, p = buildPlotData M (dn j) (rnd j) f :=
  convertAux_sound M dn rnd fs 0

/-- C10 witness: the record produced from the valid square feature is in
the batch, and the theorem exhibits its validated source feature. -/
theorem batch_only_validated_records_witness :
    (buildPlotData M0 0 "r0" f0 ∈ convertToPlotData M0 (fun i => i) (fun _ => "r0") [f0]) ∧
    (∃ f ∈ [f0], (validateGeometry M0 f.geometry).isValid = true ∧
      (buildPlotData M0 0 "r0" f0).geometry = M0.stringify f.geometry ∧
      ∃ j, buildPlotData M0 0 "r0" f0 =
        buildPlotData M0 ((fun i => i) j) ((fun _ => "r0") j) f) :=
  ⟨by decide,
    (batch_only_validated_records M0 (fun i => i) (fun _ => "r0") [f0]).2
      (buildPlotData M0 0 "r0" f0) (by decide)⟩

end LandHub
